import Mathlib

/-!
Verification of the roku-integration reconciliation core
(`src/server/RokuClient.js`): the identity resolver (`findExistingRoku`,
`handleDiscoveredCandidate`), the power-state interpreter
(`interpretPowerState`), the registry synchronizer
(`syncDevicesToRegistry`) and the recovery scanner
(`recoverDevicesFromEntityStates`).

Conventions of the shallow embedding:
* JavaScript strings that may be `undefined`/`null` are `Option String`;
  the empty string is kept as `some ""` and JS truthiness is modelled by
  `truthy` (a string is falsy exactly when absent or empty).
* `a || b` on such values is `jsOr a b`; with a plain-string fallback it
  is `jsOrS`.  A template-literal splice of a possibly-absent string is
  `jsStr` (JS renders `undefined` as the text "undefined").
* Asynchronous network calls (`RokuClient.getDeviceInfo`) are modelled
  by an oracle `fetch : String → Option DeviceInfo`; `none` stands for a
  thrown error (timeout / unreachable), `some info` for a successful
  round trip.
* The host-owned `device_registry` is a list of rows; the host call
  `api.registerDevice` is modelled from the spec as an upsert keyed by
  the device id (§4.3 "Upsert a registry record"), `regUpsert`.
* The local `roku_devices` table is a list of `Device` rows; the store
  methods `updateDevice`/`updateDeviceStatus` update the first row whose
  `device_id` matches (`DeviceStore.getDevice` takes `results[0]`).
-/

namespace Roku

/-- JS `a || b` where both sides are possibly-absent strings: a present
non-empty string wins, otherwise the right side is returned as is. -/
def jsOr (a b : Option String) : Option String :=
  match a with
  | some s => if s == "" then b else some s
  | none => b

/-- JS `a || b` where the fallback is a plain string. -/
def jsOrS (a : Option String) (b : String) : String :=
  match a with
  | some s => if s == "" then b else s
  | none => b

/-- JS template-literal rendering of a possibly-absent string:
`undefined` is spliced as the literal text "undefined". -/
def jsStr : Option String → String
  | some s => s
  | none => "undefined"

/-- JS truthiness of a possibly-absent string. -/
def truthy : Option String → Bool
  | some s => !(s == "")
  | none => false

/-- Core of JS `String.prototype.includes` on character lists. -/
def charsHaveSub (pat : List Char) : List Char → Bool
  | [] => pat.isEmpty
  | c :: rest => List.isPrefixOf pat (c :: rest) || charsHaveSub pat rest

/-- JS `s.includes(pat)`. -/
def strIncludes (s pat : String) : Bool :=
  charsHaveSub pat.data s.data

/-- Character-wise string map (the character lists of JS strings are
traversed directly so that every definition evaluates by reduction). -/
def chMap (f : Char → Char) (s : String) : String :=
  ⟨s.data.map f⟩

/-- JS `s.toLowerCase()` (ASCII, which covers every string the core
compares). -/
def strLower (s : String) : String :=
  chMap Char.toLower s

/-- JS `s.toUpperCase()` (ASCII). -/
def strUpper (s : String) : String :=
  chMap Char.toUpper s

/-- JS `s.split(sep)` for a one-character separator: accumulator-based
walk over the characters. -/
def splitChars (sep : Char) : List Char → List Char → List String
  | [], cur => [⟨cur.reverse⟩]
  | c :: rest, cur =>
    if c == sep then ⟨cur.reverse⟩ :: splitChars sep rest []
    else splitChars sep rest (c :: cur)

/-- JS `s.split(sep)` (single-character separator). -/
def jsSplit (s : String) (sep : Char) : List String :=
  splitChars sep s.data []

/-- MAC normalization from `findExistingRoku`:
`mac.toUpperCase().replace(/[:-]/g, ':')` (the colon case of the class is
the identity, so only `-` is rewritten). -/
def macNorm (m : String) : String :=
  chMap (fun c => if c == '-' then ':' else c) (strUpper m)

/-- `metadata` JSON column of a `roku_devices` row — the open map modelled
by the fields the reconciliation core reads or writes. -/
structure Metadata where
  mac_address : Option String := none
  previous_ip : Option String := none
  ip_changed_at : Option String := none
  modelNumber : Option String := none
  vendorName : Option String := none
  isTv : Bool := false
  isStick : Bool := false
  deriving Repr, DecidableEq

/-- A row of the local `roku_devices` table (schema `MODEL_SCHEMAS.devices`;
the auto-increment primary key is left implicit — row identity in the
embedding is positional). -/
structure Device where
  device_id : String
  ip_address : String
  name : String
  model : Option String := none
  serial_number : Option String := none
  software_version : Option String := none
  power_mode : Option String := none
  status : String := "unknown"
  metadata : Metadata := {}
  last_seen_at : Option String := none
  deriving Repr, DecidableEq

/-- Active-app descriptor as returned by `RokuClient.getActiveApp`. -/
structure ActiveApp where
  id : Option String := none
  name : Option String := none
  type : String
  deriving Repr, DecidableEq

/-- Result of `RokuClient.getDeviceInfo` — the fields the reconciliation
core consumes. -/
structure DeviceInfo where
  serialNumber : Option String := none
  modelName : Option String := none
  modelNumber : Option String := none
  friendlyDeviceName : Option String := none
  softwareVersion : Option String := none
  powerMode : Option String := none
  vendorName : Option String := none
  isTv : Bool := false
  isStick : Bool := false
  deriving Repr, DecidableEq

/-- A host-owned `entity_states` row as read by the recovery scanner. -/
structure EntityRow where
  entity_id : Option String := none
  id : Option String := none
  device_id : Option String := none
  deviceId : Option String := none
  source_device_id : Option String := none
  name : Option String := none
  friendly_name : Option String := none
  deriving Repr, DecidableEq

/-- Registry-record metadata: the device metadata spread plus the
`serial_number` / `power_mode` keys the synchronizer merges in. -/
structure RegMeta where
  base : Metadata := {}
  serial_number : Option String := none
  power_mode : Option String := none
  deriving Repr, DecidableEq

/-- A host-owned `device_registry` row / `api.registerDevice` descriptor. -/
structure RegRecord where
  id : String
  name : Option String := none
  friendly_name : Option String := none
  device_type : Option String := none
  extensionSource : Option String := none
  ip_address : Option String := none
  macAddress : Option String := none
  model : Option String := none
  manufacturer : Option String := none
  firmwareVersion : Option String := none
  capabilities : List String := []
  metadata : Option RegMeta := none
  deriving Repr, DecidableEq

/-- A discovery candidate; the code accepts both the direct and the
nested field spelling (`candidate.ip || candidate.ip_address`, and
likewise for the MAC). -/
structure Candidate where
  ip : Option String := none
  ip_address : Option String := none
  mac : Option String := none
  mac_address : Option String := none
  deriving Repr, DecidableEq

/-- Effective candidate IP: `candidate.ip || candidate.ip_address`,
spliced as a string where the code uses it. -/
def candIp (c : Candidate) : String :=
  jsStr (jsOr c.ip c.ip_address)

/-- Effective candidate MAC: `candidate.mac || candidate.mac_address`. -/
def candMac (c : Candidate) : Option String :=
  jsOr c.mac c.mac_address

/-- `interpretPowerState(rawPowerMode, activeApp)`: `activeApp?.type ===
'screensaver'`. -/
def isScreensaver : Option ActiveApp → Bool
  | some a => a.type == "screensaver"
  | none => false

/-- `interpretPowerState` — maps Roku's raw `power-mode` string plus the
active-app descriptor to the interpreted power state. -/
def interpretPowerState (rawPowerMode : Option String) (activeApp : Option ActiveApp) : String :=
  let mode := strLower (jsOrS rawPowerMode "")
  if mode == "standby" || mode == "displayoff" || mode == "display off" || mode == "ready" then
    "standby"
  else if mode == "headless" then
    if isScreensaver activeApp then "standby" else "on"
  else if mode == "poweron" || mode == "power on" then
    if isScreensaver activeApp then "standby" else "on"
  else if strIncludes mode "off" || strIncludes mode "standby" || strIncludes mode "ready" then
    "standby"
  else
    "on"

/-- Priority 1 of `findExistingRoku`: exact serial-number match, guarded
by JS truthiness of the candidate serial. -/
def serialTier (devices : List Device) (serialNumber : Option String) : Option Device :=
  match serialNumber with
  | some s => if s == "" then none else devices.find? (fun d => d.serial_number == some s)
  | none => none

/-- The MAC-tier predicate of `findExistingRoku`: a device matches when
its stored `metadata.mac_address`, normalized, equals the normalized
candidate MAC (a device without a stored MAC never matches). -/
def macPred (m : String) (d : Device) : Bool :=
  match d.metadata.mac_address with
  | some dm => macNorm dm == macNorm m
  | none => false

/-- Priority 2 of `findExistingRoku`: normalized MAC match against
`metadata.mac_address`, guarded by JS truthiness of the candidate MAC. -/
def macTier (devices : List Device) (mac : Option String) : Option Device :=
  match mac with
  | some m => if m == "" then none else devices.find? (macPred m)
  | none => none

/-- Priority 3 of `findExistingRoku`: `deviceStore.getDeviceByIp` — the
first row whose `ip_address` matches. -/
def ipTier (devices : List Device) (ip : String) : Option Device :=
  devices.find? (fun d => d.ip_address == ip)

/-- `findExistingRoku(serialNumber, mac, ip)` over the current
`roku_devices` rows: serial, then MAC, then IP, first match wins. -/
def findExistingRoku (devices : List Device) (serialNumber mac : Option String) (ip : String) : Option Device :=
  match serialTier devices serialNumber with
  | some d => some d
  | none =>
    match macTier devices mac with
    | some d => some d
    | none => ipTier devices ip

/-- Registry membership test for a given row id. -/
def hasId (reg : List RegRecord) (k : String) : Bool :=
  reg.any (fun r => r.id == k)

/-- Replace every registry row whose id equals the descriptor's id. -/
def mapRepl (reg : List RegRecord) (e : RegRecord) : List RegRecord :=
  reg.map (fun x => if x.id == e.id then e else x)

/-- Modelled from the spec: the host call `api.registerDevice` (its
implementation is host-platform code, outside this repository).  Per
§4.3 of the spec it upserts a registry record keyed by the descriptor's
device id: an existing row with that id is replaced in place, otherwise
the row is appended. -/
def regUpsert (reg : List RegRecord) (e : RegRecord) : List RegRecord :=
  if hasId reg e.id then mapRepl reg e else reg ++ [e]

/-- Serial extraction in `syncDevicesToRegistry`:
`device.device_id?.match(/^roku[:\-](.+)$/i)` — a case-insensitive
`roku` head, one `:` or `-` delimiter, then at least one character. -/
def idSerial (did : String) : Option String :=
  let lower := strLower did
  if List.isPrefixOf "roku:".data lower.data || List.isPrefixOf "roku-".data lower.data then
    let rest : String := ⟨did.data.drop 5⟩
    if rest == "" then none else some rest
  else none

/-- The `api.registerDevice` descriptor `syncDevicesToRegistry` builds
for one local device row (normalized id, fixed capability set, merged
metadata).  The registry reads at lines 529-548 of the source only feed
`api.log` and bind no state, so they do not appear here. -/
def toRegRecord (d : Device) : RegRecord :=
  let sn := jsOr (idSerial d.device_id) d.serial_number
  let nid := if truthy sn then "roku:" ++ jsStr sn else d.device_id
  { id := nid
    name := some d.name
    device_type := some "roku"
    extensionSource := some "roku-integration"
    ip_address := some d.ip_address
    model := some (jsOrS d.model "Unknown")
    manufacturer := some (jsOrS d.metadata.vendorName "Roku")
    firmwareVersion := d.software_version
    capabilities := ["power", "apps", "remote", "volume"]
    metadata := some { base := d.metadata, serial_number := jsOr d.serial_number sn, power_mode := d.power_mode } }

/-- The per-device loop of `syncDevicesToRegistry`.  Each device is
handled in its own `try`/`catch`: a throwing `api.registerDevice`
(modelled by the oracle `fail`) is logged and skipped, leaving the
registry untouched for that device, and the loop continues. -/
def syncLoop (fail : RegRecord → Bool) (reg : List RegRecord) : List Device → List RegRecord
  | [] => reg
  | d :: ds =>
    syncLoop fail (if fail (toRegRecord d) then reg else regUpsert reg (toRegRecord d)) ds

/-- Failure oracle for runs in which every `api.registerDevice` call
succeeds. -/
def noFail : RegRecord → Bool := fun _ => false

/-- JS `\w` character class (ASCII word character). -/
def isWordChar (c : Char) : Bool :=
  c.isAlphanum || c == '_'

/-- Core of `.replace(/\b\w/g, c => c.toUpperCase())`: uppercase each
word character standing at a word boundary.  The boolean argument says
whether the previous character was a word character. -/
def titleCaseChars : Bool → List Char → List Char
  | _, [] => []
  | prevWord, c :: rest =>
    (if !prevWord && isWordChar c then c.toUpper else c) :: titleCaseChars (isWordChar c) rest

/-- Recovered-device display name fallback in the slug map:
`slug.replace(/_/g, ' ').replace(/\b\w/g, c => c.toUpperCase())`. -/
def titleCase (s : String) : String :=
  ⟨titleCaseChars false (s.data.map (fun c => if c == '_' then ' ' else c))⟩

/-- Character class `[a-z0-9]` of the slugifying regex. -/
def isLowerDigit (c : Char) : Bool :=
  (decide ('a' ≤ c) && decide (c ≤ 'z')) || c.isDigit

/-- Core of `.replace(/[^a-z0-9]+/g, '_')`: each maximal run of
characters outside `[a-z0-9]` collapses to one underscore.  The boolean
argument says whether the previous character belonged to such a run
(whose underscore is already emitted). -/
def collapseRuns : Bool → List Char → List Char
  | _, [] => []
  | inRun, c :: rest =>
    if isLowerDigit c then c :: collapseRuns false rest
    else if inRun then collapseRuns true rest
    else '_' :: collapseRuns true rest

/-- Registry-name normalization of the recovery scanner's fuzzy match:
`(d.friendly_name || d.name || '').toLowerCase().replace(/[^a-z0-9]+/g, '_')`
(unlike the poll adapter's slug, leading/trailing underscores are kept). -/
def slugifyName (s : String) : String :=
  ⟨collapseRuns false (strLower s).data⟩

/-- One entry of the recovery scanner's `deviceMap`. -/
structure SlugInfo where
  slug : String
  device_id : Option String := none
  name : String
  deriving Repr, DecidableEq

/-- Step 1 of `recoverDevicesFromEntityStates`: walk the `entity_states`
rows, keep those whose `entity_id || id` splits on `.` into at least two
segments with head `roku`, and record the first sighting of each slug
(`parts[1]`) in insertion order. -/
def buildSlugMap : List EntityRow → List SlugInfo → List SlugInfo
  | [], acc => acc
  | e :: rest, acc =>
    buildSlugMap rest
      (match jsOr e.entity_id e.id with
       | none => acc
       | some eid =>
         let parts := jsSplit eid '.'
         if decide (parts.length ≥ 2) && (parts.head? == some "roku") then
           let slug := (parts.get? 1).getD ""
           if acc.any (fun si => si.slug == slug) then acc
           else
             acc ++ [{ slug := slug
                       device_id := jsOr (jsOr e.device_id e.deviceId) e.source_device_id
                       name := jsOrS e.name (jsOrS e.friendly_name (titleCase slug)) }]
         else acc)

/-- Step 2b of the recovery scanner: scan the registry rows of device
type `roku` and fuzzy-match the slug against each row's normalized name
(substring in either direction); first hit wins. -/
def fuzzyFind (reg : List RegRecord) (normalizedSlug : String) : Option RegRecord :=
  (reg.filter (fun d => d.device_type == some "roku")).find? (fun d =>
    let deviceName := slugifyName (jsOrS d.friendly_name (jsOrS d.name ""))
    strIncludes deviceName normalizedSlug || strIncludes normalizedSlug deviceName)

/-- Step 2 of the recovery scanner: recover an IP for a slug, first by
registry id lookup, then by fuzzy name match; the result is `none`
whenever the code's `ipAddress` variable stays falsy (a thrown registry
query is caught and leaves it null, the same outcome). -/
def recoverIp (reg : List RegRecord) (si : SlugInfo) : Option String :=
  let ip1 : Option String :=
    if truthy si.device_id then
      match reg.find? (fun r => r.id == jsStr si.device_id) with
      | some r => r.ip_address
      | none => none
    else none
  let ip2 : Option String :=
    if truthy ip1 then ip1
    else
      match fuzzyFind reg (strLower si.slug) with
      | some r => r.ip_address
      | none => ip1
  if truthy ip2 then ip2 else none

/-- Steps 3-4 of the recovery scanner for one slug: skip when no IP was
recovered; otherwise attempt the live `getDeviceInfo` round trip (`fetch`
oracle) and, only on success, build the full device record from the
fetched info. -/
def recoverSlug (reg : List RegRecord) (fetch : String → Option DeviceInfo) (now : String) (si : SlugInfo) : Option Device :=
  match recoverIp reg si with
  | none => none
  | some ipAddress =>
    match fetch ipAddress with
    | none => none
    | some info =>
      some { device_id := jsOrS si.device_id ("roku:" ++ jsStr info.serialNumber)
             ip_address := ipAddress
             name := jsOrS info.friendlyDeviceName si.name
             model := info.modelName
             serial_number := info.serialNumber
             software_version := info.softwareVersion
             power_mode := info.powerMode
             status := "online"
             metadata := { modelNumber := info.modelNumber
                           vendorName := info.vendorName
                           isTv := info.isTv
                           isStick := info.isStick }
             last_seen_at := some now }

/-- `recoverDevicesFromEntityStates`: enumerate slugs from the entity
rows, then recover each slug independently; the returned list is both
the function's result and the set of rows `deviceStore.createDevice`
appended to the local table. -/
def recoverDevicesFromEntityStates (entities : List EntityRow) (reg : List RegRecord) (fetch : String → Option DeviceInfo) (now : String) : List Device :=
  (buildSlugMap entities []).filterMap (recoverSlug reg fetch now)

/-- `syncDevicesToRegistry`: read the local table, fall back to recovery
when it is empty, then upsert every device into the registry.  Returns
the local table and the registry after the run. -/
def syncDevicesToRegistry (locals : List Device) (entities : List EntityRow) (reg : List RegRecord) (fetch : String → Option DeviceInfo) (now : String) (fail : RegRecord → Bool) : List Device × List RegRecord :=
  let devices := if locals.isEmpty then recoverDevicesFromEntityStates entities reg fetch now else locals
  (devices, syncLoop fail reg devices)

/-- An `api.broadcast` call made by `handleDiscoveredCandidate` (the
mirror emission of `roku:device-added` on the global event bus carries
the same payload and is not tracked separately). -/
inductive BEvent where
  | ipChanged (deviceId name oldIp newIp : String)
  | deviceAdded (device : Device)
  deriving Repr, DecidableEq

/-- The value `handleDiscoveredCandidate` returns to the discovery flow. -/
structure ClaimResult where
  claim : Bool
  deviceId : Option String := none
  name : Option String := none
  serialNumber : Option String := none
  deriving Repr, DecidableEq

/-- Effects and result of one `handleDiscoveredCandidate` call. -/
structure HandleOutcome where
  devices : List Device
  registryCalls : List RegRecord
  broadcasts : List BEvent
  result : ClaimResult
  deriving Repr, DecidableEq

/-- `DeviceStore.updateDevice`: look up the first row with the given
`device_id` and update it in place; rows after the first match and all
other rows are untouched, and a missing id is a no-op. -/
def updateFirstDevice (did : String) (f : Device → Device) : List Device → List Device
  | [] => []
  | d :: ds => if d.device_id == did then f d :: ds else d :: updateFirstDevice did f ds

/-- `handleDiscoveredCandidate(candidate)` after the network fetch: the
`fetchResult` argument is the outcome of `new RokuClient(ip).getDeviceInfo()`
(`none` for a thrown error, which the surrounding `catch` turns into
`{claim: false}`).  The `isRoku` check of the source ends in `|| true`
and therefore never rejects a device that answered the fetch. -/
def handleDiscoveredCandidate (devices : List Device) (cand : Candidate) (fetchResult : Option DeviceInfo) (now : String) : HandleOutcome :=
  let ip := candIp cand
  let mac := candMac cand
  match fetchResult with
  | none => { devices := devices, registryCalls := [], broadcasts := [], result := { claim := false } }
  | some info =>
    match findExistingRoku devices info.serialNumber mac ip with
    | some existing =>
      let oldIp := existing.ip_address
      if oldIp ≠ ip then
        { devices := updateFirstDevice existing.device_id (fun d =>
            { d with ip_address := ip
                     status := "online"
                     last_seen_at := some now
                     metadata := { existing.metadata with
                                   mac_address := jsOr mac existing.metadata.mac_address
                                   previous_ip := some oldIp
                                   ip_changed_at := some now } }) devices
          registryCalls := [{ id := existing.device_id
                              name := some existing.name
                              device_type := some "roku"
                              extensionSource := some "roku-integration"
                              ip_address := some ip
                              model := existing.model
                              manufacturer := some "Roku"
                              firmwareVersion := existing.software_version
                              capabilities := ["power", "apps", "remote", "volume"]
                              metadata := some { base := { existing.metadata with
                                                           mac_address := jsOr mac existing.metadata.mac_address } } }]
          broadcasts := [.ipChanged existing.device_id existing.name oldIp ip]
          result := { claim := true, deviceId := some existing.device_id, name := some existing.name, serialNumber := existing.serial_number } }
      else
        { devices := updateFirstDevice existing.device_id (fun d =>
            { d with status := "online", last_seen_at := some now }) devices
          registryCalls := []
          broadcasts := []
          result := { claim := true, deviceId := some existing.device_id, name := some existing.name, serialNumber := existing.serial_number } }
    | none =>
      let deviceId := "roku:" ++ jsOrS info.serialNumber (chMap (fun c => if c == '.' then '-' else c) ip)
      let device : Device :=
        { device_id := deviceId
          ip_address := ip
          name := jsOrS info.friendlyDeviceName ("Roku " ++ jsStr info.modelName)
          model := info.modelName
          serial_number := info.serialNumber
          software_version := info.softwareVersion
          power_mode := info.powerMode
          status := "online"
          metadata := { modelNumber := info.modelNumber
                        vendorName := info.vendorName
                        isTv := info.isTv
                        isStick := info.isStick
                        mac_address := mac }
          last_seen_at := some now }
      { devices := devices ++ [device]
        registryCalls := [{ id := deviceId
                            name := some device.name
                            device_type := some "roku"
                            extensionSource := some "roku-integration"
                            ip_address := some ip
                            macAddress := mac
                            model := device.model
                            manufacturer := some "Roku"
                            firmwareVersion := device.software_version
                            capabilities := ["power", "apps", "remote", "volume"]
                            metadata := some { base := device.metadata } }]
        broadcasts := [.deviceAdded device]
        result := { claim := true, deviceId := some deviceId, name := some device.name, serialNumber := info.serialNumber } }

/-- Concrete fixture: a known device record with serial `X1`. -/
def devA : Device :=
  { device_id := "roku:X1", ip_address := "192.168.1.50", name := "Living Room TV", serial_number := some "X1" }

/-- Concrete fixture: a known device record carrying only a stored MAC. -/
def devB : Device :=
  { device_id := "roku:Y2", ip_address := "192.168.1.60", name := "Bedroom TV",
    metadata := { mac_address := some "aa:bb:cc:dd:ee:ff" } }

/-- Concrete fixture: a discovery candidate seen at a new IP. -/
def cand4 : Candidate := { ip := some "192.168.1.77" }

/-- Concrete fixture: fetched device info reporting serial `X1`. -/
def info4 : DeviceInfo := { serialNumber := some "X1" }

/-- Concrete fixture: a historical entity-state row in the naming the
recovery scanner scans for. -/
def entW : EntityRow := { entity_id := some "roku.den_tv.power" }

/-- Concrete fixture: a registry row of device type `roku` whose name
fuzzy-matches the slug `den_tv`. -/
def regRowW : RegRecord :=
  { id := "reg1", device_type := some "roku", friendly_name := some "Den TV", ip_address := some "10.0.0.9" }

/-- Concrete fixture: a fetch oracle on which only `10.0.0.9` answers. -/
def fetchW : String → Option DeviceInfo := fun ip =>
  if ip == "10.0.0.9" then
    some { serialNumber := some "SER9", modelName := some "Ultra",
           friendlyDeviceName := some "Den TV", softwareVersion := some "12.0" }
  else none

/-- Concrete fixture: the device record recovery builds from `fetchW`'s
answer for `10.0.0.9`. -/
def devW : Device :=
  { device_id := "roku:SER9", ip_address := "10.0.0.9", name := "Den TV", model := some "Ultra",
    serial_number := some "SER9", software_version := some "12.0", status := "online",
    last_seen_at := some "t0" }

/-- Concrete fixture: a registration-failure oracle that rejects exactly
the descriptor with id `roku:BAD`. -/
def failW : RegRecord → Bool := fun e => e.id == "roku:BAD"

/-- Concrete fixture: a device whose registry upsert will throw. -/
def devBad : Device := { device_id := "roku:BAD", ip_address := "10.0.0.1", name := "Bad TV" }

/-- Concrete fixture: a device whose registry upsert succeeds. -/
def devGood : Device := { device_id := "roku:G1", ip_address := "10.0.0.2", name := "Good TV" }

/-- Concrete fixture: a registry holding only a legacy dashed entry for
serial `X1`. -/
def legacyRow : RegRecord := { id := "roku-X1" }

/-- Registry contents after one synchronizer run over a single local
device with serial `X1`, starting from a registry that holds the legacy
dashed entry for the same serial. -/
def syncDupRun : List RegRecord :=
  (syncDevicesToRegistry [devA] [] [legacyRow] (fun _ => none) "t0" noFail).2

/-- Concrete fixture: an entity-state row in the naming the data model
defines and the poll adapter produces. -/
def mediaPlayerRow : EntityRow := { entity_id := some "media_player.living_room" }

/-- Concrete fixture: an entity-state row in the legacy naming the
recovery scanner actually scans for. -/
def rokuPrefixRow : EntityRow := { entity_id := some "roku.living_room.power" }

theorem serialTier_mem {devices : List Device} {s : Option String} {d : Device}
    (h : serialTier devices s = some d) : d ∈ devices := by
  cases s with
  | none => cases h
  | some str =>
    by_cases hstr : (str == "") = true
    · simp only [serialTier, if_pos hstr] at h
      cases h
    · simp only [serialTier, if_neg hstr] at h
      exact List.mem_of_find?_eq_some h

theorem macTier_mem {devices : List Device} {m : Option String} {d : Device}
    (h : macTier devices m = some d) : d ∈ devices := by
  cases m with
  | none => cases h
  | some str =>
    by_cases hstr : (str == "") = true
    · simp only [macTier, if_pos hstr] at h
      cases h
    · simp only [macTier, if_neg hstr] at h
      exact List.mem_of_find?_eq_some h

theorem ipTier_mem {devices : List Device} {ip : String} {d : Device}
    (h : ipTier devices ip = some d) : d ∈ devices :=
  List.mem_of_find?_eq_some h

theorem findExistingRoku_mem {devices : List Device} {s m : Option String} {ip : String} {d : Device}
    (h : findExistingRoku devices s m ip = some d) : d ∈ devices := by
  unfold findExistingRoku at h
  cases hst : serialTier devices s with
  | some d0 => rw [hst] at h; cases h; exact serialTier_mem hst
  | none =>
    rw [hst] at h
    cases hmt : macTier devices m with
    | some d0 => rw [hmt] at h; cases h; exact macTier_mem hmt
    | none => rw [hmt] at h; exact ipTier_mem h

/-- C1: for every candidate whose serial number equals the
`serial_number` of some known device record, `findExistingRoku` returns
a record with that serial, for arbitrary candidate MAC and IP — the
serial tier has top priority and is checked first. -/
theorem findExistingRoku_serial_first (devices : List Device) (s : String) (mac : Option String)
    (ip : String) (hs : s ≠ "") (hex : ∃ d ∈ devices, d.serial_number = some s) :
    ∃ d, findExistingRoku devices (some s) mac ip = some d ∧ d.serial_number = some s := by
  obtain ⟨d0, hd0, hser⟩ := hex
  cases hfind : devices.find? (fun d => d.serial_number == some s) with
  | none =>
    exfalso
    have := List.find?_eq_none.mp hfind d0 hd0
    simp [hser] at this
  | some d =>
    have hp := List.find?_some hfind
    have hst : serialTier devices (some s) = some d := by
      simp only [serialTier]
      rw [if_neg (by simpa using hs)]
      exact hfind
    refine ⟨d, ?_, by simpa using hp⟩
    simp [findExistingRoku, hst]

theorem findExistingRoku_serial_first_witness :
    ("X1" ≠ "") ∧ (∃ d ∈ [devA], d.serial_number = some "X1") ∧
    ∃ d, findExistingRoku [devA] (some "X1") (some "AA-BB") "9.9.9.9" = some d ∧
      d.serial_number = some "X1" :=
  ⟨by decide, by decide,
   findExistingRoku_serial_first [devA] "X1" (some "AA-BB") "9.9.9.9" (by decide) (by decide)⟩

/-- C5: for every candidate with no serial-tier match but whose MAC,
after the code's normalization (uppercase, `-` rewritten to `:`),
equals some record's stored metadata MAC, `findExistingRoku` returns a
MAC-matched record. -/
theorem findExistingRoku_mac_second (devices : List Device) (serial : Option String) (m : String)
    (ip : String) (hser : serialTier devices serial = none) (hm : m ≠ "")
    (hex : ∃ d ∈ devices, ∃ dm, d.metadata.mac_address = some dm ∧ macNorm dm = macNorm m) :
    ∃ d, findExistingRoku devices serial (some m) ip = some d ∧
      ∃ dm, d.metadata.mac_address = some dm ∧ macNorm dm = macNorm m := by
  obtain ⟨d0, hd0, dm0, hdm0, hnorm⟩ := hex
  cases hfind : devices.find? (macPred m) with
  | none =>
    exfalso
    have := List.find?_eq_none.mp hfind d0 hd0
    simp [macPred, hdm0, hnorm] at this
  | some d =>
    have hp := List.find?_some hfind
    have hmt : macTier devices (some m) = some d := by
      simp only [macTier]
      rw [if_neg (by simpa using hm)]
      exact hfind
    refine ⟨d, ?_, ?_⟩
    · simp [findExistingRoku, hser, hmt]
    · unfold macPred at hp
      cases hdm : d.metadata.mac_address with
      | none => rw [hdm] at hp; cases hp
      | some dm => rw [hdm] at hp; exact ⟨dm, rfl, by simpa using hp⟩

theorem findExistingRoku_mac_second_witness :
    (serialTier [devB] none = none) ∧ ("AA-BB-CC-DD-EE-FF" ≠ "") ∧
    (∃ d ∈ [devB], ∃ dm, d.metadata.mac_address = some dm ∧
      macNorm dm = macNorm "AA-BB-CC-DD-EE-FF") ∧
    ∃ d, findExistingRoku [devB] none (some "AA-BB-CC-DD-EE-FF") "9.9.9.9" = some d ∧
      ∃ dm, d.metadata.mac_address = some dm ∧ macNorm dm = macNorm "AA-BB-CC-DD-EE-FF" :=
  ⟨rfl, by decide, ⟨devB, by simp, "aa:bb:cc:dd:ee:ff", rfl, by decide⟩,
   findExistingRoku_mac_second [devB] none "AA-BB-CC-DD-EE-FF" "9.9.9.9" rfl (by decide)
     ⟨devB, by simp, "aa:bb:cc:dd:ee:ff", rfl, by decide⟩⟩

/-- C2: the power-state interpreter satisfies the spec's test vector. -/
theorem interpretPowerState_test_vector :
    interpretPowerState (some "Ready") none = "standby" ∧
    interpretPowerState (some "PowerOn") (some { type := "screensaver" }) = "standby" ∧
    interpretPowerState (some "PowerOn") (some { type := "app" }) = "on" ∧
    interpretPowerState (some "Headless") none = "on" ∧
    interpretPowerState (some "garbage") none = "on" := by
  refine ⟨?_, ?_, ?_, ?_, ?_⟩ <;> decide

/-- C10: for every raw power-mode string (absent and empty included) and
every active-app value, `interpretPowerState` returns either `on` or
`standby` — never `off` or `unknown`. -/
theorem interpretPowerState_on_or_standby (raw : Option String) (app : Option ActiveApp) :
    interpretPowerState raw app = "on" ∨ interpretPowerState raw app = "standby" := by
  unfold interpretPowerState
  dsimp only
  split_ifs <;> simp

theorem hasId_mapRepl (reg : List RegRecord) (e : RegRecord) (k : String) :
    hasId (mapRepl reg e) k = hasId reg k := by
  induction reg with
  | nil => rfl
  | cons x xs ih =>
    show (((if x.id == e.id then e else x).id == k) || hasId (mapRepl xs e) k)
        = ((x.id == k) || hasId xs k)
    by_cases hx : x.id = e.id
    · rw [if_pos (by simp [hx]), ih, hx]
    · rw [if_neg (by simp [hx]), ih]

theorem mapRepl_absent (reg : List RegRecord) (e : RegRecord) (h : hasId reg e.id = false) :
    mapRepl reg e = reg := by
  induction reg with
  | nil => rfl
  | cons x xs ih =>
    simp only [hasId, List.any_cons, Bool.or_eq_false_iff] at h
    show (if x.id == e.id then e else x) :: mapRepl xs e = x :: xs
    rw [if_neg (by simp [h.1]), ih h.2]

theorem mapRepl_mapRepl_same (reg : List RegRecord) (e e2 : RegRecord) (h : e2.id = e.id) :
    mapRepl (mapRepl reg e) e2 = mapRepl reg e2 := by
  unfold mapRepl
  rw [List.map_map]
  congr 1
  funext x
  by_cases hx : x.id = e.id
  · simp [Function.comp, hx, h]
  · simp [Function.comp, hx]

theorem mapRepl_comm (reg : List RegRecord) (e e2 : RegRecord) (h : e.id ≠ e2.id) :
    mapRepl (mapRepl reg e) e2 = mapRepl (mapRepl reg e2) e := by
  unfold mapRepl
  rw [List.map_map, List.map_map]
  congr 1
  funext x
  by_cases hx : x.id = e.id <;> by_cases hx2 : x.id = e2.id
  · exact absurd (hx.symm.trans hx2) h
  · simp [Function.comp, hx, hx2, h]
  · simp [Function.comp, hx, hx2, Ne.symm h]
  · simp [Function.comp, hx, hx2]

theorem hasId_append_single (reg : List RegRecord) (e : RegRecord) (k : String) :
    hasId (reg ++ [e]) k = (hasId reg k || (e.id == k)) := by
  simp [hasId]

theorem hasId_regUpsert (reg : List RegRecord) (e : RegRecord) (k : String) :
    hasId (regUpsert reg e) k = (hasId reg k || (e.id == k)) := by
  unfold regUpsert
  by_cases h : hasId reg e.id = true
  · rw [if_pos h, hasId_mapRepl]
    by_cases hk : e.id = k
    · subst hk; simp [h]
    · simp [hk]
  · rw [if_neg h, hasId_append_single]

theorem hasId_upsert_self (reg : List RegRecord) (e : RegRecord) :
    hasId (regUpsert reg e) e.id = true := by
  rw [hasId_regUpsert]
  simp

theorem upsert_mapRepl_same (reg : List RegRecord) (e e2 : RegRecord) (h : e2.id = e.id) :
    regUpsert (mapRepl reg e) e2 = regUpsert reg e2 := by
  unfold regUpsert
  rw [hasId_mapRepl]
  by_cases hp : hasId reg e2.id = true
  · rw [if_pos hp, if_pos hp, mapRepl_mapRepl_same _ _ _ h]
  · have hf : hasId reg e.id = false := by rw [← h]; simpa using hp
    rw [if_neg hp, if_neg hp, mapRepl_absent _ _ hf]

theorem upsert_mapRepl_comm (reg : List RegRecord) (e e2 : RegRecord) (h : e2.id ≠ e.id) :
    regUpsert (mapRepl reg e) e2 = mapRepl (regUpsert reg e2) e := by
  unfold regUpsert
  rw [hasId_mapRepl]
  by_cases hp : hasId reg e2.id = true
  · rw [if_pos hp, if_pos hp]
    exact mapRepl_comm reg e e2 (Ne.symm h)
  · rw [if_neg hp, if_neg hp]
    unfold mapRepl
    rw [List.map_append]
    simp [h]

theorem foldl_upsert_mapRepl (es : List RegRecord) :
    ∀ (reg : List RegRecord) (e : RegRecord),
      List.foldl regUpsert (mapRepl reg e) es =
        if es.any (fun x => x.id == e.id) then List.foldl regUpsert reg es
        else mapRepl (List.foldl regUpsert reg es) e := by
  induction es with
  | nil => intro reg e; simp
  | cons e2 t ih =>
    intro reg e
    simp only [List.foldl_cons, List.any_cons]
    by_cases h2 : e2.id = e.id
    · rw [upsert_mapRepl_same _ _ _ h2, if_pos (by simp [h2])]
    · rw [upsert_mapRepl_comm _ _ _ h2, ih (regUpsert reg e2) e]
      simp [h2]

theorem mapRepl_upsert_self (reg : List RegRecord) (e : RegRecord) :
    mapRepl (regUpsert reg e) e = regUpsert reg e := by
  unfold regUpsert
  by_cases hp : hasId reg e.id = true
  · rw [if_pos hp]
    exact mapRepl_mapRepl_same reg e e rfl
  · rw [if_neg hp]
    have hf : hasId reg e.id = false := by simpa using hp
    have hsplit : mapRepl (reg ++ [e]) e = mapRepl reg e ++ mapRepl [e] e := by
      simp [mapRepl]
    rw [hsplit, mapRepl_absent reg e hf]
    simp [mapRepl]

theorem hasId_foldl_upsert (es : List RegRecord) :
    ∀ (reg : List RegRecord) (k : String), hasId reg k = true →
      hasId (List.foldl regUpsert reg es) k = true := by
  induction es with
  | nil => intro reg k h; simpa using h
  | cons e t ih =>
    intro reg k h
    simp only [List.foldl_cons]
    refine ih _ _ ?_
    rw [hasId_regUpsert, h]
    rfl

theorem regUpsert_present (reg : List RegRecord) (e : RegRecord) (h : hasId reg e.id = true) :
    regUpsert reg e = mapRepl reg e := by
  unfold regUpsert
  rw [if_pos h]

theorem foldl_upsert_idem (es : List RegRecord) :
    ∀ reg : List RegRecord,
      List.foldl regUpsert (List.foldl regUpsert reg es) es = List.foldl regUpsert reg es := by
  induction es with
  | nil => intro reg; rfl
  | cons e t ih =>
    intro reg
    simp only [List.foldl_cons]
    have hB : hasId (List.foldl regUpsert (regUpsert reg e) t) e.id = true :=
      hasId_foldl_upsert t _ _ (hasId_upsert_self reg e)
    rw [regUpsert_present _ _ hB, foldl_upsert_mapRepl]
    by_cases ht : t.any (fun x => x.id == e.id) = true
    · rw [if_pos ht]
      exact ih (regUpsert reg e)
    · rw [if_neg ht, ih (regUpsert reg e)]
      have h2 := foldl_upsert_mapRepl t (regUpsert reg e) e
      rw [if_neg ht] at h2
      rw [← h2, mapRepl_upsert_self]

theorem hasId_syncLoop (fail : RegRecord → Bool) (ds : List Device) :
    ∀ (reg : List RegRecord) (k : String), hasId reg k = true →
      hasId (syncLoop fail reg ds) k = true := by
  induction ds with
  | nil => intro reg k h; simpa [syncLoop] using h
  | cons d t ih =>
    intro reg k h
    show hasId (syncLoop fail (if fail (toRegRecord d) then reg else regUpsert reg (toRegRecord d)) t) k = true
    by_cases hf : fail (toRegRecord d) = true
    · rw [if_pos hf]
      exact ih reg k h
    · rw [if_neg hf]
      refine ih _ k ?_
      rw [hasId_regUpsert, h]
      rfl

/-- C9: for every list of local device records, a device whose registry
upsert throws (oracle `fail`) is skipped without touching the registry,
and every later non-failing device in the list is still synchronized —
its normalized id ends up present in the registry. -/
theorem syncLoop_failure_isolated (fail : RegRecord → Bool) (reg : List RegRecord) (ds : List Device) :
    (∀ d ∈ ds, fail (toRegRecord d) = false →
      hasId (syncLoop fail reg ds) (toRegRecord d).id = true) ∧
    (∀ b, fail (toRegRecord b) = true →
      syncLoop fail reg (b :: ds) = syncLoop fail reg ds) := by
  constructor
  · intro d
    induction ds generalizing reg with
    | nil => intro hd; cases hd
    | cons a t ih =>
      intro hd hfail
      show hasId (syncLoop fail (if fail (toRegRecord a) then reg else regUpsert reg (toRegRecord a)) t) (toRegRecord d).id = true
      rcases List.mem_cons.mp hd with rfl | hmem
      · rw [if_neg (by simp [hfail])]
        exact hasId_syncLoop fail t _ _ (hasId_upsert_self reg (toRegRecord d))
      · by_cases hf : fail (toRegRecord a) = true
        · rw [if_pos hf]
          exact ih reg hmem hfail
        · rw [if_neg hf]
          exact ih _ hmem hfail
  · intro b hfail
    show syncLoop fail (if fail (toRegRecord b) then reg else regUpsert reg (toRegRecord b)) ds
        = syncLoop fail reg ds
    rw [if_pos hfail]

theorem syncLoop_failure_isolated_witness :
    devGood ∈ [devBad, devGood] ∧ failW (toRegRecord devGood) = false ∧
    hasId (syncLoop failW [] [devBad, devGood]) (toRegRecord devGood).id = true :=
  ⟨by decide, by decide,
   (syncLoop_failure_isolated failW [] [devBad, devGood]).1 devGood (by decide) (by decide)⟩

theorem syncLoop_eq_foldl (fail : RegRecord → Bool) (ds : List Device) :
    ∀ reg : List RegRecord,
      syncLoop fail reg ds =
        List.foldl regUpsert reg ((ds.map toRegRecord).filter (fun e => !fail e)) := by
  induction ds with
  | nil => intro reg; rfl
  | cons d t ih =>
    intro reg
    show syncLoop fail (if fail (toRegRecord d) then reg else regUpsert reg (toRegRecord d)) t = _
    rw [List.map_cons, List.filter_cons]
    by_cases hf : fail (toRegRecord d) = true
    · rw [if_pos hf, if_neg (show ¬((!fail (toRegRecord d)) = true) by simp [hf]), ih reg]
    · rw [if_neg hf, if_pos (show (!fail (toRegRecord d)) = true by simp [hf]),
        List.foldl_cons, ih (regUpsert reg (toRegRecord d))]

theorem syncLoop_noFail (ds : List Device) (reg : List RegRecord) :
    syncLoop noFail reg ds = List.foldl regUpsert reg (ds.map toRegRecord) := by
  rw [syncLoop_eq_foldl]
  congr 1
  simp [noFail]

theorem syncLoop_noFail_idem (ds : List Device) (reg : List RegRecord) :
    syncLoop noFail (syncLoop noFail reg ds) ds = syncLoop noFail reg ds := by
  simp only [syncLoop_noFail]
  exact foldl_upsert_idem _ _

/-- C7: running the registry synchronizer twice in a row over unchanged
inputs returns exactly the state of the single run — the registry rows
are the same list (so the second run performs no effective writes and
creates no duplicate rows; the synchronizer broadcasts no events at
all). -/
theorem sync_idempotent (locals : List Device) (entities : List EntityRow) (reg : List RegRecord)
    (fetch : String → Option DeviceInfo) (now : String) :
    syncDevicesToRegistry (syncDevicesToRegistry locals entities reg fetch now noFail).1 entities
      (syncDevicesToRegistry locals entities reg fetch now noFail).2 fetch now noFail =
    syncDevicesToRegistry locals entities reg fetch now noFail := by
  cases locals with
  | cons d ds =>
    show ((d :: ds), syncLoop noFail (syncLoop noFail reg (d :: ds)) (d :: ds))
        = ((d :: ds), syncLoop noFail reg (d :: ds))
    rw [syncLoop_noFail_idem]
  | nil =>
    have h1 : syncDevicesToRegistry ([] : List Device) entities reg fetch now noFail
        = (recoverDevicesFromEntityStates entities reg fetch now,
           syncLoop noFail reg (recoverDevicesFromEntityStates entities reg fetch now)) := rfl
    cases hrec : recoverDevicesFromEntityStates entities reg fetch now with
    | nil =>
      rw [h1, hrec]
      show syncDevicesToRegistry ([] : List Device) entities reg fetch now noFail = ([], reg)
      rw [h1, hrec]
      rfl
    | cons r rs =>
      rw [h1, hrec]
      show ((r :: rs), syncLoop noFail (syncLoop noFail reg (r :: rs)) (r :: rs))
          = ((r :: rs), syncLoop noFail reg (r :: rs))
      rw [syncLoop_noFail_idem]

/-- C3 (failing run): starting from a registry that already holds the
legacy dashed entry `roku-X1`, one synchronizer run over a local device
with serial `X1` leaves the registry holding BOTH `roku-X1` and
`roku:X1` — the canonical upsert is keyed by `roku:X1` and never removes
the legacy row, so the claimed at-most-one-record invariant fails. -/
theorem sync_keeps_legacy_duplicate :
    hasId syncDupRun "roku:X1" = true ∧ hasId syncDupRun "roku-X1" = true := by
  constructor <;> decide

/-- C8 (failing run): the recovery scanner's enumeration filters entity
rows by the prefix `roku.`, so a row keyed in the `media_player.<slug>`
format the data model defines (and the poll adapter produces) yields no
slug, while a row keyed `roku.living_room.power` does. -/
theorem recovery_enumeration_uses_roku_naming :
    buildSlugMap [mediaPlayerRow] [] = [] ∧
    buildSlugMap [rokuPrefixRow] [] =
      [{ slug := "living_room", device_id := none, name := "Living Room" }] := by
  constructor <;> decide

/-- C6: every device record the recovery scanner creates is backed by a
successful live device-info fetch to the recovered IP, and its
`serial_number`, `model` and `software_version` fields are exactly the
fetched values — a slug whose IP does not answer contributes no record. -/
theorem recovery_live_verified (entities : List EntityRow) (reg : List RegRecord)
    (fetch : String → Option DeviceInfo) (now : String) :
    ∀ d ∈ recoverDevicesFromEntityStates entities reg fetch now,
      ∃ ip info, fetch ip = some info ∧ d.ip_address = ip ∧
        d.serial_number = info.serialNumber ∧ d.model = info.modelName ∧
        d.software_version = info.softwareVersion := by
  intro d hd
  simp only [recoverDevicesFromEntityStates, List.mem_filterMap] at hd
  obtain ⟨si, _, hrec⟩ := hd
  unfold recoverSlug at hrec
  cases h1 : recoverIp reg si with
  | none => rw [h1] at hrec; cases hrec
  | some ipA =>
    simp only [h1] at hrec
    cases h2 : fetch ipA with
    | none => rw [h2] at hrec; cases hrec
    | some info =>
      rw [h2] at hrec
      cases hrec
      exact ⟨ipA, info, h2, rfl, rfl, rfl, rfl⟩

theorem recovery_live_verified_witness :
    (devW ∈ recoverDevicesFromEntityStates [entW] [regRowW] fetchW "t0") ∧
    ∃ ip info, fetchW ip = some info ∧ devW.ip_address = ip ∧
      devW.serial_number = info.serialNumber ∧ devW.model = info.modelName ∧
      devW.software_version = info.softwareVersion :=
  ⟨by decide, recovery_live_verified [entW] [regRowW] fetchW "t0" devW (by decide)⟩

theorem updateFirstDevice_mem (devices : List Device) (did : String) (f : Device → Device)
    (h : ∃ d ∈ devices, d.device_id = did) :
    ∃ d0 ∈ devices, d0.device_id = did ∧ f d0 ∈ updateFirstDevice did f devices := by
  induction devices with
  | nil => obtain ⟨d, hd, _⟩ := h; cases hd
  | cons a as ih =>
    by_cases ha : a.device_id = did
    · refine ⟨a, List.mem_cons_self a as, ha, ?_⟩
      show f a ∈ (if a.device_id == did then f a :: as else a :: updateFirstDevice did f as)
      rw [if_pos (by simp [ha])]
      exact List.mem_cons_self _ _
    · obtain ⟨d, hd, hdid⟩ := h
      rcases List.mem_cons.mp hd with rfl | hmem
      · exact absurd hdid ha
      · obtain ⟨d0, hd0, hdid0, hf⟩ := ih ⟨d, hmem, hdid⟩
        refine ⟨d0, List.mem_cons_of_mem _ hd0, hdid0, ?_⟩
        show f d0 ∈ (if a.device_id == did then f a :: as else a :: updateFirstDevice did f as)
        rw [if_neg (by simp [ha])]
        exact List.mem_cons_of_mem _ hf

/-- C4: when the identity resolver matches an existing record, the
handler updates the first table row with that record's id in place —
new IP, refreshed `last_seen_at`, `metadata.previous_ip` set to the old
IP and `metadata.ip_changed_at` set to now — and broadcasts exactly one
`roku:ip-changed` event, when the candidate IP differs; when the IP is
unchanged it refreshes only `status`/`last_seen_at` and broadcasts
nothing. -/
theorem handle_ip_change_paths (devices : List Device) (cand : Candidate) (info : DeviceInfo)
    (now : String) (ex : Device)
    (hfind : findExistingRoku devices info.serialNumber (candMac cand) (candIp cand) = some ex) :
    (ex.ip_address ≠ candIp cand →
      (handleDiscoveredCandidate devices cand (some info) now).broadcasts =
        [BEvent.ipChanged ex.device_id ex.name ex.ip_address (candIp cand)] ∧
      ∃ d0 ∈ devices, d0.device_id = ex.device_id ∧
        ({ d0 with ip_address := candIp cand
                   status := "online"
                   last_seen_at := some now
                   metadata := { ex.metadata with
                                 mac_address := jsOr (candMac cand) ex.metadata.mac_address
                                 previous_ip := some ex.ip_address
                                 ip_changed_at := some now } } : Device) ∈
          (handleDiscoveredCandidate devices cand (some info) now).devices) ∧
    (ex.ip_address = candIp cand →
      (handleDiscoveredCandidate devices cand (some info) now).broadcasts = [] ∧
      ∃ d0 ∈ devices, d0.device_id = ex.device_id ∧
        ({ d0 with status := "online", last_seen_at := some now } : Device) ∈
          (handleDiscoveredCandidate devices cand (some info) now).devices) := by
  have hex : ∃ d0 ∈ devices, d0.device_id = ex.device_id := ⟨ex, findExistingRoku_mem hfind, rfl⟩
  unfold handleDiscoveredCandidate
  simp only [hfind]
  constructor
  · intro hne
    rw [if_pos hne]
    exact ⟨rfl, updateFirstDevice_mem devices ex.device_id _ hex⟩
  · intro heq
    rw [if_neg (not_not_intro heq)]
    exact ⟨rfl, updateFirstDevice_mem devices ex.device_id _ hex⟩

theorem handle_ip_change_paths_witness :
    (findExistingRoku [devA] info4.serialNumber (candMac cand4) (candIp cand4) = some devA) ∧
    devA.ip_address ≠ candIp cand4 ∧
    (handleDiscoveredCandidate [devA] cand4 (some info4) "t1").broadcasts =
      [BEvent.ipChanged devA.device_id devA.name devA.ip_address (candIp cand4)] :=
  ⟨by decide, by decide,
   ((handle_ip_change_paths [devA] cand4 info4 "t1" devA (by decide)).1 (by decide)).1⟩
